import Mathlib

/-
Verification of the asar-rust-bindings wrapper layer (src/src/lib.rs).

The wrapper mediates between owned Rust values and a stateful C assembler
engine.  The engine itself is external to the crate (declared through
generated bindings, implemented by the third-party asar library), so it is
modelled here as an opaque parameter: a record of behaviour functions over an
abstract engine-state type.  Properties the specification attributes to the
engine (rather than to the wrapper code) are modelled from the spec as
explicitly named contract predicates and taken as hypotheses.

Rust panics (the `.unwrap()` calls on `CString::new`) are modelled by an
`Option` result: `none` means the call panicked and produced no value.
-/

set_option autoImplicit false

namespace AsarSnes

/-- A ROM byte (a `u8` in the source; values above 255 never arise in the
theorems, which only move bytes around). -/
abbrev Byte := Nat

/-- The NUL character, which terminates C strings. -/
def nulChar : Char := Char.ofNat 0

/-- Whether a Rust `String` contains an embedded NUL byte.  `CString::new`
fails exactly on such strings. -/
def hasNul (s : String) : Bool := s.data.contains nulChar

/-- Model of `Option<String> -> Option<CString>` marshalling of the
`stdincludesfile` / `stddefinesfile` fields (lib.rs lines 585-586): `true`
iff every present string is NUL-free, i.e. no `.unwrap()` panics. -/
def optNulFree : Option String → Bool
  | none => true
  | some s => !hasNul s

/-- `RomData` (lib.rs lines 106-110): an owned byte buffer plus the logical
ROM length. -/
structure RomData where
  data : List Byte
  length : Nat
deriving Repr, DecidableEq

/-- `RomData::from_vec` (lib.rs lines 254-257). -/
def RomData.from_vec (d : List Byte) : RomData := ⟨d, d.length⟩

/-- `Define` (lib.rs lines 129-133). -/
structure Define where
  name : String
  contents : String
deriving Repr, DecidableEq

/-- `WarnSetting` (lib.rs lines 160-164). -/
structure WarnSetting where
  warnid : String
  enabled : Bool
deriving Repr, DecidableEq

/-- `MemoryFileData` (lib.rs lines 167-171). -/
inductive MemoryFileData where
  | binary (d : List Byte)
  | text (s : String)
deriving Repr, DecidableEq

/-- `MemoryFile` (lib.rs lines 192-196). -/
structure MemoryFile where
  filename : String
  data : MemoryFileData
deriving Repr, DecidableEq

/-- `Label` (lib.rs lines 146-150); `labeldata` has the same shape, so the
raw record is identified with the owned one (marshalling copies the name). -/
structure Label where
  name : String
  location : Int
deriving Repr, DecidableEq

/-- `WrittenBlock` (lib.rs lines 137-142). -/
structure WrittenBlock where
  pcoffset : Int
  snesoffset : Int
  numbytes : Int
deriving Repr, DecidableEq

/-- The raw `errordata` record as the engine exposes it: the three leading
strings are always non-null, `filename` and `callerfilename` may be null
pointers (modelled as `Option`). -/
structure RawError where
  fullerrdata : String
  rawerrdata : String
  block : String
  filename : Option String
  line : Int
  callerfilename : Option String
  callerline : Int
  errid : Int
deriving Repr, DecidableEq

/-- `ErrorData` (lib.rs lines 113-123): the owned diagnostic record. -/
structure ErrorData where
  fullerrdata : String
  rawerrdata : String
  block : String
  filename : String
  line : Int
  callerfilename : String
  callerline : Int
  errid : Int
deriving Repr, DecidableEq

/-- `ErrorData::from_raw` (lib.rs lines 300-331): copies each string out of
engine memory; a null `filename` / `callerfilename` becomes the empty
string. -/
def ErrorData.from_raw (raw : RawError) : ErrorData :=
  { fullerrdata := raw.fullerrdata
    rawerrdata := raw.rawerrdata
    block := raw.block
    filename := raw.filename.getD ""
    line := raw.line
    callerfilename := raw.callerfilename.getD ""
    callerline := raw.callerline
    errid := raw.errid }

/-- `WarningData` is an alias of `ErrorData` (lib.rs line 126). -/
abbrev WarningData := ErrorData

/-- `BasicPatchOptions` (lib.rs lines 153-157). -/
structure BasicPatchOptions where
  romdata : RomData
  patchloc : String
deriving Repr, DecidableEq

/-- `AdvancedPatchOptions` (lib.rs lines 202-213). -/
structure AdvancedPatchOptions where
  includepaths : List String
  should_reset : Bool
  additional_defines : List Define
  stdincludesfile : Option String
  stddefinesfile : Option String
  warning_settings : List WarnSetting
  memory_files : List MemoryFile
  override_checksum_gen : Bool
  generate_checksum : Bool
deriving Repr, DecidableEq

/-- `AdvancedPatchOptions::new` (lib.rs lines 384-396): all defaults, with
`should_reset` true. -/
def AdvancedPatchOptions.new : AdvancedPatchOptions :=
  { includepaths := []
    should_reset := true
    additional_defines := []
    stdincludesfile := none
    stddefinesfile := none
    warning_settings := []
    memory_files := []
    override_checksum_gen := false
    generate_checksum := false }

/-- `PatchResult` (lib.rs lines 224-227). -/
inductive PatchResult where
  | Success (romdata : RomData) (warnings : List WarningData)
  | Failure (errors : List ErrorData)
deriving Repr, DecidableEq

/-- The engine's global mutable state: the tables the query functions read
(`asar_geterrors`, `asar_getwarnings`, `asar_getprints`, `asar_getalllabels`,
`asar_getalldefines`, `asar_getwrittenblocks`). -/
structure EngineState where
  errors : List RawError
  warnings : List RawError
  prints : List String
  labels : List Label
  defines : List Define
  writtenBlocks : List WrittenBlock
deriving Repr, DecidableEq

/-- The result of one engine patch call: the reported success flag, the bytes
the engine left in the caller's buffer (it writes in place), the new ROM
length written through the in/out `romlen` pointer, and the engine state
after the call. -/
structure PatchOutcome where
  success : Bool
  newBytes : List Byte
  newLen : Nat
  newState : EngineState

/-- The external assembler engine, modelled as opaque behaviour functions.
`patchExFn` is `asar_patch_ex` (receiving the marshalled options), `patchFn`
is the plain `asar_patch`.  Both write the ROM buffer in place, so the
returned byte list always has the same length as the supplied one (the
`_buflen` fields record this physical fact).  `mathFn` returns the numeric
result together with the optional error string written through the out
pointer. -/
structure Engine where
  patchExFn : String → List Byte → Nat → AdvancedPatchOptions → EngineState → PatchOutcome
  patchFn : String → List Byte → Nat → EngineState → PatchOutcome
  resetFn : EngineState → Bool × EngineState
  getlabelvalFn : EngineState → String → Int
  mathFn : String → Float × Option String
  patchExFn_buflen : ∀ loc bytes len opts s,
    (patchExFn loc bytes len opts s).newBytes.length = bytes.length
  patchFn_buflen : ∀ loc bytes len s,
    (patchFn loc bytes len s).newBytes.length = bytes.length

namespace patching

/-- `patching::reset` (lib.rs lines 518-521): direct pass-through to
`asar_reset`. -/
def reset (e : Engine) (s : EngineState) : Bool × EngineState := e.resetFn s

/-- `patching::errors` (lib.rs lines 656-662). -/
def errors (s : EngineState) : List ErrorData := s.errors.map ErrorData.from_raw

/-- `patching::warnings` (lib.rs lines 667-673). -/
def warnings (s : EngineState) : List WarningData := s.warnings.map ErrorData.from_raw

/-- `patching::prints` (lib.rs lines 678-687). -/
def prints (s : EngineState) : List String := s.prints

/-- `patching::labels` (lib.rs lines 692-698). -/
def labels (s : EngineState) : List Label := s.labels

/-- `patching::defines` (lib.rs lines 737-743). -/
def defines (s : EngineState) : List Define := s.defines

/-- `patching::label_value` (lib.rs lines 705-714): marshals the name (the
`.unwrap()` panics on an embedded NUL, hence the outer `Option`), then maps
the engine's sentinel `-1` to `none`. -/
def label_value (e : Engine) (name : String) (s : EngineState) : Option (Option Int) :=
  if hasNul name then none
  else
    let value := e.getlabelvalFn s name
    if value = -1 then some none else some (some value)

/-- `math` (lib.rs lines 464-475): marshals the expression (panic on NUL),
then returns `Ok(result)` when the engine left the error pointer null and
`Err(message)` otherwise. -/
def math (e : Engine) (expr : String) : Option (Except String Float) :=
  if hasNul expr then none
  else
    match e.mathFn expr with
    | (result, none) => some (Except.ok result)
    | (_, some err) => some (Except.error err)

/-- `patching::patch` (lib.rs lines 528-550): marshals the patch location
(panic on NUL), calls `asar_patch` on the buffer in place, reads the
warnings, and on success updates the logical length from the engine's
reported `romsize`; on failure the `RomData` is dropped and only the error
list is returned. -/
def patch (e : Engine) (options : BasicPatchOptions) (s : EngineState) :
    Option (PatchResult × EngineState) :=
  if hasNul options.patchloc then none
  else
    let out := e.patchFn options.patchloc options.romdata.data options.romdata.length s
    let warns := out.newState.warnings.map ErrorData.from_raw
    if out.success then
      some (PatchResult.Success ⟨out.newBytes, out.newLen⟩ warns, out.newState)
    else
      some (PatchResult.Failure (out.newState.errors.map ErrorData.from_raw), out.newState)

/-- Whether marshalling one `Define` through `Define::as_raw` (lib.rs lines
344-351) succeeds: both `CString::new` calls are `.unwrap()`ed. -/
def defineNulFree (d : Define) : Bool := !hasNul d.name && !hasNul d.contents

/-- `patching::patch_ex_basic` (lib.rs lines 552-626): marshals the patch
location, the additional defines, the warning settings, the memory files,
the include paths and the two std-file overrides (each `CString::new` is
`.unwrap()`ed, so any embedded NUL panics and yields `none`), then calls
`asar_patch_ex` and unconditionally (line 623, `rom.length = romsize`)
copies the engine-reported length back — on the failure path as well. -/
def patch_ex_basic (e : Engine) (rom : RomData) (patch : String)
    (options : AdvancedPatchOptions) (s : EngineState) :
    Option (RomData × Bool × EngineState) :=
  if hasNul patch then none
  else if !options.additional_defines.all defineNulFree then none
  else if !options.warning_settings.all (fun w => !hasNul w.warnid) then none
  else if !options.memory_files.all (fun m => !hasNul m.filename) then none
  else if !options.includepaths.all (fun p => !hasNul p) then none
  else if !optNulFree options.stdincludesfile then none
  else if !optNulFree options.stddefinesfile then none
  else
    let out := e.patchExFn patch rom.data rom.length options s
    some (⟨out.newBytes, out.newLen⟩, out.success, out.newState)

/-- `patching::patch_ex` (lib.rs lines 633-651): wraps `patch_ex_basic`,
reading warnings always and errors on failure. -/
def patch_ex (e : Engine) (rom : RomData) (patch : String)
    (options : AdvancedPatchOptions) (s : EngineState) :
    Option (PatchResult × EngineState) :=
  match patch_ex_basic e rom patch options s with
  | none => none
  | some (romdata, result, s') =>
    let warns := s'.warnings.map ErrorData.from_raw
    if result then
      some (PatchResult.Success romdata warns, s')
    else
      some (PatchResult.Failure (s'.errors.map ErrorData.from_raw), s')

end patching

/-! ## Marshalling allocation/release trace of `patch_ex_basic`

`patch_ex_basic` hands several heap-allocated C strings across the boundary.
The trace below records, in source order, every such allocation, every
release, and the engine call itself (lib.rs lines 552-626):

* line 560: the patch location `CString` (an owned local, dropped at scope
  exit, i.e. after the engine call and after the explicit frees);
* lines 564-568 via `Define::as_raw` (344-351): name and contents
  `CString::into_raw` for each additional define;
* lines 569-573 via `WarnSetting::as_raw` (290-298): `warnid`
  `CString::into_raw` for each warning setting — never freed;
* lines 574-578 via `MemoryFile::as_raw` (271-288): path `CString::into_raw`
  for each memory file — never freed;
* lines 579-583: one `CString::into_raw` per include path;
* lines 585-586: `stdincludesfile` / `stddefinesfile` `CString`s, which are
  then consumed by `Option::map_or(ptr::null(), |s| s.as_ptr())` on lines
  599-600 while the parameter block is being built — each is dropped there,
  before `asar_patch_ex` runs on line 608;
* lines 610-615: frees of the define name/contents strings;
* lines 617-621: frees of the include-path strings.
-/

/-- Identity of one marshalled C-string allocation in `patch_ex_basic`
(indices refer to the position in the corresponding options list). -/
inductive AllocTag where
  | patchLoc
  | defineName (i : Nat)
  | defineContents (i : Nat)
  | warnId (i : Nat)
  | memPath (i : Nat)
  | includePath (i : Nat)
  | stdIncludes
  | stdDefines
deriving Repr, DecidableEq

/-- One event in the marshalling lifetime trace of `patch_ex_basic`. -/
inductive Event where
  | alloc (t : AllocTag)
  | free (t : AllocTag)
  | engineCall
deriving Repr, DecidableEq

/-- The allocation/release/call sequence `patch_ex_basic` performs, in source
order (see the section comment above for the line-by-line derivation). -/
def patchExBasicTrace (options : AdvancedPatchOptions) : List Event :=
  [Event.alloc AllocTag.patchLoc]
  ++ (List.range options.additional_defines.length).flatMap
      (fun i => [Event.alloc (AllocTag.defineName i), Event.alloc (AllocTag.defineContents i)])
  ++ (List.range options.warning_settings.length).map (fun i => Event.alloc (AllocTag.warnId i))
  ++ (List.range options.memory_files.length).map (fun i => Event.alloc (AllocTag.memPath i))
  ++ (List.range options.includepaths.length).map (fun i => Event.alloc (AllocTag.includePath i))
  ++ (match options.stdincludesfile with
      | none => []
      | some _ => [Event.alloc AllocTag.stdIncludes])
  ++ (match options.stddefinesfile with
      | none => []
      | some _ => [Event.alloc AllocTag.stdDefines])
  ++ (match options.stdincludesfile with
      | none => []
      | some _ => [Event.free AllocTag.stdIncludes])
  ++ (match options.stddefinesfile with
      | none => []
      | some _ => [Event.free AllocTag.stdDefines])
  ++ [Event.engineCall]
  ++ (List.range options.additional_defines.length).flatMap
      (fun i => [Event.free (AllocTag.defineName i), Event.free (AllocTag.defineContents i)])
  ++ (List.range options.includepaths.length).map (fun i => Event.free (AllocTag.includePath i))
  ++ [Event.free AllocTag.patchLoc]

/-- Whether an event is the engine call marker. -/
def Event.isCall : Event → Bool
  | Event.engineCall => true
  | _ => false

/-- The part of a trace that happens strictly before the engine call. -/
def beforeCall (tr : List Event) : List Event := tr.takeWhile (fun ev => !ev.isCall)

/-- The part of a trace that happens strictly after the engine call. -/
def afterCall (tr : List Event) : List Event := (tr.dropWhile (fun ev => !ev.isCall)).tail

/-- The tags allocated somewhere in a trace. -/
def allocTags (tr : List Event) : List AllocTag :=
  tr.filterMap (fun ev => match ev with | Event.alloc t => some t | _ => none)

/-- Whether every allocation in the trace has a matching release performed
after the engine call returns. -/
def pairedReleaseAfterCall (tr : List Event) : Bool :=
  (allocTags tr).all (fun t => (afterCall tr).contains (Event.free t))

/-- Whether no buffer is released before the engine call completes. -/
def noFreeBeforeCall (tr : List Event) : Bool :=
  (beforeCall tr).all (fun ev => match ev with | Event.free _ => false | _ => true)

/-! ## The `Patcher` / `ApplyResult` protocol -/

/-- The wrapper-level global state: the apply-gate flag
`APPLYRESULT_ONCE_ALIVE` (lib.rs line 867) together with the engine state. -/
structure WState where
  gate : Bool
  est : EngineState
deriving Repr, DecidableEq

/-- `Patcher` (lib.rs lines 814-817). -/
structure Patcher where
  options : Option AdvancedPatchOptions
deriving Repr, DecidableEq

/-- `ApplyResult` (lib.rs lines 846-863), minus the lock guard / phantom
marker, which carry no data. -/
structure ApplyResult where
  romdata : RomData
  success : Bool
deriving Repr, DecidableEq

/-- What one `Patcher::apply` call can produce: the typed
`ConcurrentApplyError`, a panic inside marshalling, or a live
`ApplyResult`. -/
inductive ApplyOutcome where
  | concurrentErr
  | panicked
  | ok (r : ApplyResult)
deriving Repr, DecidableEq

/-- `Patcher::apply` (lib.rs lines 901-951, identical logic in both feature
configurations): first a compare-exchange on `APPLYRESULT_ONCE_ALIVE` — if
the flag is already set the call returns `Err(ConcurrentApplyError)` at once,
touching nothing; otherwise the flag is set and `patch_ex_basic` runs with
the accumulated options (`unwrap_or_default`). -/
def Patcher.apply (e : Engine) (p : Patcher) (rom : RomData) (patch : String)
    (s : WState) : ApplyOutcome × WState :=
  if s.gate then
    (ApplyOutcome.concurrentErr, s)
  else
    match patching.patch_ex_basic e rom patch (p.options.getD AdvancedPatchOptions.new) s.est with
    | none => (ApplyOutcome.panicked, ⟨true, s.est⟩)
    | some (romdata, result, s') => (ApplyOutcome.ok ⟨romdata, result⟩, ⟨true, s'⟩)

/-- `ApplyResult::romdata` (lib.rs lines 1038-1042) followed by the implicit
drop of `self`: the body takes the ROM data out and stores `false` into
`APPLYRESULT_ONCE_ALIVE`; then, because `romdata` takes `self` by value,
`Drop for ApplyResult` (lines 1045-1049) runs at the end of the body and
calls `patching::reset()` (whose boolean result is discarded). -/
def ApplyResult.romdataConsume (e : Engine) (r : ApplyResult) (s : WState) :
    RomData × WState :=
  (r.romdata, ⟨false, (e.resetFn s.est).2⟩)

/-- Dropping an `ApplyResult` without calling `romdata`: only `Drop for
ApplyResult` (lib.rs lines 1045-1049) runs, which calls `patching::reset()`
and nothing else — in particular `APPLYRESULT_ONCE_ALIVE` is not written. -/
def ApplyResult.dropWithoutConsume (e : Engine) (s : WState) : WState :=
  ⟨s.gate, (e.resetFn s.est).2⟩

/-! ## Engine contracts modelled from the spec

The engine is external to the crate (only its C declarations ship with the
repository), so properties the spec attributes to it are modelled from the
spec's words as explicit contract predicates. -/

/-- Modelled from the spec: "on success, ROM length is updated from the
engine's reported new length (which may shrink or stay equal, never exceed
the supplied buffer capacity — exceeding it is a failure, not silent
truncation)".  The missing part is the engine implementation behind
`asar_patch` / `asar_patch_ex`. -/
def EngineSuccLenOk (e : Engine) : Prop :=
  (∀ loc bytes len opts s, (e.patchExFn loc bytes len opts s).success = true →
    (e.patchExFn loc bytes len opts s).newLen ≤ bytes.length) ∧
  (∀ loc bytes len s, (e.patchFn loc bytes len s).success = true →
    (e.patchFn loc bytes len s).newLen ≤ bytes.length)

/-- Modelled from the spec: "For all failed patches, `PatchResult::Failure`
carries at least one diagnostic with a non-empty message and a defined
numeric id" — the engine leaves, in its error table, at least one record
with a non-empty full message and a positive id (asar ids are stable
positive numbers).  The missing part is the engine implementation behind
`asar_patch` / `asar_patch_ex` / `asar_geterrors`. -/
def EngineFailErrOk (e : Engine) : Prop :=
  (∀ loc bytes len opts s, (e.patchExFn loc bytes len opts s).success = false →
    (e.patchExFn loc bytes len opts s).newState.errors ≠ [] ∧
    ∀ er ∈ (e.patchExFn loc bytes len opts s).newState.errors,
      er.fullerrdata ≠ "" ∧ 0 < er.errid) ∧
  (∀ loc bytes len s, (e.patchFn loc bytes len s).success = false →
    (e.patchFn loc bytes len s).newState.errors ≠ [] ∧
    ∀ er ∈ (e.patchFn loc bytes len s).newState.errors,
      er.fullerrdata ≠ "" ∧ 0 < er.errid)

/-- Modelled from the spec: "Resets Asar, clearing all the errors, warnings
and prints" / "calling `reset()` then querying `labels()`/`defines()`/
`errors()` yields empty results" — a successful `asar_reset` clears the
engine's global tables.  The missing part is the engine implementation
behind `asar_reset`. -/
def EngineResetOk (e : Engine) : Prop :=
  ∀ s, (e.resetFn s).1 = true →
    (e.resetFn s).2.errors = [] ∧ (e.resetFn s).2.warnings = [] ∧
    (e.resetFn s).2.prints = [] ∧ (e.resetFn s).2.labels = [] ∧
    (e.resetFn s).2.defines = []

/-! ## Concrete engines and inputs for witnesses and counterexamples -/

/-- The empty engine state. -/
def emptyState : EngineState := ⟨[], [], [], [], [], []⟩

/-- A concrete diagnostic record. -/
def sampleRawError : RawError :=
  ⟨"error: label not found", "label not found", "main", none, 3, none, 0, 5077⟩

/-- An engine whose patch calls always succeed without writing, reporting the
buffer length back, and whose reset succeeds and clears everything. -/
def okEngine : Engine where
  patchExFn := fun _ bytes _ _ _ => ⟨true, bytes, bytes.length, emptyState⟩
  patchFn := fun _ bytes _ _ => ⟨true, bytes, bytes.length, emptyState⟩
  resetFn := fun _ => (true, emptyState)
  getlabelvalFn := fun _ _ => -1
  mathFn := fun _ => (0, none)
  patchExFn_buflen := fun _ _ _ _ _ => rfl
  patchFn_buflen := fun _ _ _ _ => rfl

/-- The engine state left behind by a failing call of `failEngine`. -/
def failState : EngineState := ⟨[sampleRawError], [], [], [], [], []⟩

/-- An engine whose patch calls always fail, leaving one diagnostic and
reporting a new length of 7 through the in/out `romlen` pointer. -/
def failEngine : Engine where
  patchExFn := fun _ bytes _ _ _ => ⟨false, bytes, 7, failState⟩
  patchFn := fun _ bytes _ _ => ⟨false, bytes, 7, failState⟩
  resetFn := fun _ => (true, emptyState)
  getlabelvalFn := fun _ _ => -1
  mathFn := fun _ => (0, none)
  patchExFn_buflen := fun _ _ _ _ _ => rfl
  patchFn_buflen := fun _ _ _ _ => rfl

/-- A concrete patch location. -/
def tloc : String := "test.asm"

/-- A concrete four-byte ROM. -/
def rom4 : RomData := RomData.from_vec [0, 0, 0, 0]

/-- Options exercising the leaking marshalling paths: one warning setting,
one memory file and a std-includes override. -/
def leakOptions : AdvancedPatchOptions :=
  { AdvancedPatchOptions.new with
      warning_settings := [⟨"Wrelative_path_used", false⟩]
      memory_files := [⟨"test.asm", MemoryFileData.text "org $008000"⟩]
      stdincludesfile := Option.some "std.txt" }

/-- Options using only the marshalling paths that are correctly released:
one define and one include path. -/
def pairedOptions : AdvancedPatchOptions :=
  { AdvancedPatchOptions.new with
      additional_defines := [⟨"test", "$18"⟩]
      includepaths := ["includefiles"] }

/-- A string with an embedded NUL byte, the caller contract violation of the
marshalling layer. -/
def nulString : String := "bad\x00name"

/-- A well-formed failure diagnostic list: non-empty, and every entry has a
non-empty full message and a positive numeric id. -/
def goodDiagnostics (errs : List ErrorData) : Prop :=
  errs ≠ [] ∧ ∀ er ∈ errs, er.fullerrdata ≠ "" ∧ 0 < er.errid

/-! ## Helper lemmas -/

/-- When `patch_ex_basic` returns normally, its three components are exactly
the engine call's outcome: the in-place-written bytes, the engine-reported
length (copied back unconditionally, line 623), the reported success flag and
the post-call engine state. -/
theorem patch_ex_basic_eq_some (e : Engine) (rom : RomData) (patch : String)
    (options : AdvancedPatchOptions) (s : EngineState) (rom' : RomData) (res : Bool)
    (s' : EngineState)
    (h : patching.patch_ex_basic e rom patch options s = some (rom', res, s')) :
    rom' = ⟨(e.patchExFn patch rom.data rom.length options s).newBytes,
            (e.patchExFn patch rom.data rom.length options s).newLen⟩ ∧
    res = (e.patchExFn patch rom.data rom.length options s).success ∧
    s' = (e.patchExFn patch rom.data rom.length options s).newState := by
  unfold patching.patch_ex_basic at h
  split_ifs at h
  simp only [Option.some.injEq, Prod.mk.injEq] at h
  exact ⟨h.1.symm, h.2.1.symm, h.2.2.symm⟩

/-! ## Claim theorems -/

/-- C1: the claim states that disposing of an `ApplyResult` either by
consuming it with `romdata()` or by dropping it without consuming makes the
apply-gate available again.  The code violates the drop half: `Drop for
ApplyResult` only calls `patching::reset()` and never clears
`APPLYRESULT_ONCE_ALIVE`, so after a drop without `romdata()` the gate stays
set and every subsequent `Patcher::apply` returns `ConcurrentApplyError` —
contradicting the code's own `ConcurrentApplyError` message ("drop() it or
consume it by calling `ApplyResult::romdata()`").  This theorem evaluates
the model at the failing input: a first apply succeeds, the result is
dropped without consuming, the gate is still set, and the next apply fails;
while the `romdata()` path does clear the gate. -/
theorem c1_drop_without_consume_leaves_gate_set :
    (Patcher.apply okEngine ⟨none⟩ rom4 tloc ⟨false, emptyState⟩).1 ≠
      ApplyOutcome.concurrentErr ∧
    (ApplyResult.dropWithoutConsume okEngine
      (Patcher.apply okEngine ⟨none⟩ rom4 tloc ⟨false, emptyState⟩).2).gate = true ∧
    (Patcher.apply okEngine ⟨none⟩ rom4 tloc
      (ApplyResult.dropWithoutConsume okEngine
        (Patcher.apply okEngine ⟨none⟩ rom4 tloc ⟨false, emptyState⟩).2)).1 =
      ApplyOutcome.concurrentErr ∧
    (ApplyResult.romdataConsume okEngine ⟨rom4, true⟩ ⟨true, emptyState⟩).2.gate = false := by
  decide

/-- C2: while an `ApplyResult` is alive (the apply-gate flag is set), every
`Patcher::apply` call returns `ConcurrentApplyError` with the whole state
unchanged, for every engine behaviour — i.e. the underlying patch operation
is never invoked and nothing is modified. -/
theorem c2_apply_while_alive_fails_without_engine_call (e : Engine) (p : Patcher)
    (rom : RomData) (patch : String) (s : WState) (h : s.gate = true) :
    Patcher.apply e p rom patch s = (ApplyOutcome.concurrentErr, s) := by
  unfold Patcher.apply
  rw [h]
  simp

/-- Witness for C2 at a concrete alive state. -/
theorem c2_witness :
    (⟨true, emptyState⟩ : WState).gate = true ∧
    Patcher.apply okEngine ⟨none⟩ rom4 tloc ⟨true, emptyState⟩ =
      (ApplyOutcome.concurrentErr, ⟨true, emptyState⟩) :=
  ⟨rfl, c2_apply_while_alive_fails_without_engine_call okEngine ⟨none⟩ rom4 tloc
    ⟨true, emptyState⟩ rfl⟩

/-- C4: the claim states that every marshalled buffer is released after the
engine call on both paths, with no leak and no release before the call
completes.  The code violates this twice: the warning-setting id and
memory-file path `CString`s created by `into_raw` are never freed, and the
`stdincludesfile` / `stddefinesfile` `CString`s are dropped inside
`Option::map_or` while the parameter block is being built, before
`asar_patch_ex` runs.  Evaluated at options with one warning setting, one
memory file and a std-includes override, both properties fail; at options
using only defines and include paths (the correctly handled kinds) both
hold. -/
theorem c4_marshalling_leaks_and_early_frees :
    pairedReleaseAfterCall (patchExBasicTrace leakOptions) = false ∧
    noFreeBeforeCall (patchExBasicTrace leakOptions) = false ∧
    pairedReleaseAfterCall (patchExBasicTrace pairedOptions) = true ∧
    noFreeBeforeCall (patchExBasicTrace pairedOptions) = true := by
  decide

/-- C3: the claim states that a failed patch call leaves the caller's
`RomData` unchanged.  Counterexample: with an engine that fails and reports
a new length of 7 through the in/out `romlen` pointer, `Patcher::apply` on a
four-byte ROM returns a failed `ApplyResult` whose `romdata.length` is 7,
not the supplied 4 — because `patch_ex_basic` copies the engine-reported
length back unconditionally (lib.rs line 623), on the failure path too. -/
theorem c3_failed_apply_changes_romdata_length :
    (Patcher.apply failEngine ⟨none⟩ rom4 tloc ⟨false, emptyState⟩).1 =
      ApplyOutcome.ok ⟨⟨[0, 0, 0, 0], 7⟩, false⟩ ∧
    rom4.length = 4 := by
  decide

/-- C3 (amended): a failed patch call does not restore the caller's
`RomData`; `patch_ex_basic` (hence `patch_ex` and `Patcher::apply`) returns
the buffer as the engine left it with the logical length set to the
engine-reported new length, on failure as well as success — only the buffer
capacity is preserved, because the engine writes in place. -/
theorem c3_failure_returns_engine_reported_romdata (e : Engine) (rom : RomData)
    (patch : String) (options : AdvancedPatchOptions) (s : EngineState)
    (rom' : RomData) (res : Bool) (s' : EngineState) (_hres : res = false)
    (h : patching.patch_ex_basic e rom patch options s = some (rom', res, s')) :
    rom'.data = (e.patchExFn patch rom.data rom.length options s).newBytes ∧
    rom'.length = (e.patchExFn patch rom.data rom.length options s).newLen ∧
    rom'.data.length = rom.data.length := by
  obtain ⟨h1, _, _⟩ := patch_ex_basic_eq_some e rom patch options s rom' res s' h
  subst h1
  exact ⟨rfl, rfl, e.patchExFn_buflen patch rom.data rom.length options s⟩

/-- Witness for C3 (amended) at the concrete failing engine. -/
theorem c3_witness :
    (false : Bool) = false ∧
    ((⟨[0, 0, 0, 0], 7⟩ : RomData).data =
      (failEngine.patchExFn tloc rom4.data rom4.length AdvancedPatchOptions.new
        emptyState).newBytes ∧
    (⟨[0, 0, 0, 0], 7⟩ : RomData).length =
      (failEngine.patchExFn tloc rom4.data rom4.length AdvancedPatchOptions.new
        emptyState).newLen ∧
    (⟨[0, 0, 0, 0], 7⟩ : RomData).data.length = rom4.data.length) :=
  ⟨rfl, c3_failure_returns_engine_reported_romdata failEngine rom4 tloc
    AdvancedPatchOptions.new emptyState ⟨[0, 0, 0, 0], 7⟩ false failState rfl (by decide)⟩

/-- C5: for every engine honouring its documented success-length contract,
every successful patch — through `patching::patch`, `patching::patch_ex` or
`Patcher::apply` — yields a `RomData` whose logical length is at most the
length of the originally supplied byte buffer. -/
theorem c5_success_length_le_buffer (e : Engine) (hE : EngineSuccLenOk e) :
    (∀ options s rd w s',
      patching.patch e options s = some (PatchResult.Success rd w, s') →
      rd.length ≤ options.romdata.data.length) ∧
    (∀ rom patch options s rd w s',
      patching.patch_ex e rom patch options s = some (PatchResult.Success rd w, s') →
      rd.length ≤ rom.data.length) ∧
    (∀ p rom patch s rd,
      (Patcher.apply e p rom patch s).1 = ApplyOutcome.ok ⟨rd, true⟩ →
      rd.length ≤ rom.data.length) := by
  refine ⟨?_, ?_, ?_⟩
  · intro options s rd w s' h
    simp only [patching.patch] at h
    split_ifs at h with hnul hsucc
    · simp only [Option.some.injEq, Prod.mk.injEq, PatchResult.Success.injEq] at h
      obtain ⟨⟨hrd, _⟩, _⟩ := h
      subst hrd
      exact hE.2 options.patchloc options.romdata.data options.romdata.length s hsucc
    · simp at h
  · intro rom patch options s rd w s' h
    simp only [patching.patch_ex] at h
    cases hb : patching.patch_ex_basic e rom patch options s with
    | none => rw [hb] at h; simp at h
    | some v =>
      obtain ⟨rom', res, s''⟩ := v
      obtain ⟨h1, h2, h3⟩ := patch_ex_basic_eq_some e rom patch options s rom' res s'' hb
      rw [hb] at h
      dsimp only at h
      split_ifs at h with hres
      · simp only [Option.some.injEq, Prod.mk.injEq, PatchResult.Success.injEq] at h
        obtain ⟨⟨hrd, _⟩, _⟩ := h
        subst hrd
        rw [h1]
        exact hE.1 patch rom.data rom.length options s (by rw [← h2]; exact hres)
      · simp at h
  · intro p rom patch s rd h
    simp only [Patcher.apply] at h
    split_ifs at h with hgate
    cases hb : patching.patch_ex_basic e rom patch (p.options.getD AdvancedPatchOptions.new) s.est with
    | none => rw [hb] at h; simp at h
    | some v =>
      obtain ⟨rom', res, s''⟩ := v
      obtain ⟨h1, h2, h3⟩ :=
        patch_ex_basic_eq_some e rom patch (p.options.getD AdvancedPatchOptions.new) s.est
          rom' res s'' hb
      rw [hb] at h
      dsimp only at h
      simp only [ApplyOutcome.ok.injEq, ApplyResult.mk.injEq] at h
      obtain ⟨hrd, hres⟩ := h
      subst hrd
      rw [h1]
      exact hE.1 patch rom.data rom.length (p.options.getD AdvancedPatchOptions.new) s.est
        (by rw [← h2]; exact hres)

/-- Witness for C5: the always-succeeding engine honours the contract, and a
concrete successful patch of the four-byte ROM reports length 4 ≤ 4. -/
theorem c5_witness :
    EngineSuccLenOk okEngine ∧
    (⟨[0, 0, 0, 0], 4⟩ : RomData).length ≤
      ({ romdata := rom4, patchloc := tloc } : BasicPatchOptions).romdata.data.length :=
  ⟨⟨fun _ bytes _ _ _ _ => Nat.le_refl bytes.length,
    fun _ bytes _ _ _ => Nat.le_refl bytes.length⟩,
   (c5_success_length_le_buffer okEngine
      ⟨fun _ bytes _ _ _ _ => Nat.le_refl bytes.length,
       fun _ bytes _ _ _ => Nat.le_refl bytes.length⟩).1
     { romdata := rom4, patchloc := tloc } emptyState ⟨[0, 0, 0, 0], 4⟩ [] emptyState
     (by decide)⟩

/-- C6: for every engine honouring its documented failure-diagnostics
contract, every failed patch through `patching::patch` or
`patching::patch_ex` returns a `PatchResult::Failure` carrying at least one
`ErrorData` with a non-empty full message and a positive numeric id
(`ErrorData::from_raw` copies both fields verbatim). -/
theorem c6_failure_carries_nonempty_diagnostics (e : Engine) (hE : EngineFailErrOk e) :
    (∀ options s errs s',
      patching.patch e options s = some (PatchResult.Failure errs, s') →
      goodDiagnostics errs) ∧
    (∀ rom patch options s errs s',
      patching.patch_ex e rom patch options s = some (PatchResult.Failure errs, s') →
      goodDiagnostics errs) := by
  have key : ∀ raws : List RawError,
      raws ≠ [] → (∀ er ∈ raws, er.fullerrdata ≠ "" ∧ 0 < er.errid) →
      goodDiagnostics (raws.map ErrorData.from_raw) := by
    intro raws hne hprops
    refine ⟨by simpa using hne, ?_⟩
    intro er her
    rw [List.mem_map] at her
    obtain ⟨raw, hraw, rfl⟩ := her
    exact ⟨(hprops raw hraw).1, (hprops raw hraw).2⟩
  refine ⟨?_, ?_⟩
  · intro options s errs s' h
    simp only [patching.patch] at h
    split_ifs at h with hnul hsucc
    · simp at h
    · simp only [Option.some.injEq, Prod.mk.injEq, PatchResult.Failure.injEq] at h
      obtain ⟨herrs, _⟩ := h
      subst herrs
      have hfail : (e.patchFn options.patchloc options.romdata.data options.romdata.length
          s).success = false := by
        simpa using hsucc
      obtain ⟨hne, hprops⟩ :=
        hE.2 options.patchloc options.romdata.data options.romdata.length s hfail
      exact key _ hne hprops
  · intro rom patch options s errs s' h
    simp only [patching.patch_ex] at h
    cases hb : patching.patch_ex_basic e rom patch options s with
    | none => rw [hb] at h; simp at h
    | some v =>
      obtain ⟨rom', res, s''⟩ := v
      obtain ⟨h1, h2, h3⟩ := patch_ex_basic_eq_some e rom patch options s rom' res s'' hb
      rw [hb] at h
      dsimp only at h
      split_ifs at h with hres
      · simp at h
      · simp only [Option.some.injEq, Prod.mk.injEq, PatchResult.Failure.injEq] at h
        obtain ⟨herrs, hs⟩ := h
        subst herrs
        have hfail : (e.patchExFn patch rom.data rom.length options s).success = false := by
          rw [← h2]; simpa using hres
        obtain ⟨hne, hprops⟩ := hE.1 patch rom.data rom.length options s hfail
        rw [h3]
        exact key _ hne hprops

/-- Witness for C6: the always-failing engine honours the contract, and its
concrete failure list is a good diagnostics list. -/
theorem c6_witness :
    EngineFailErrOk failEngine ∧ goodDiagnostics [ErrorData.from_raw sampleRawError] := by
  have hF : EngineFailErrOk failEngine := by
    refine ⟨?_, ?_⟩
    · intro loc bytes len opts s _
      refine ⟨?_, ?_⟩
      · show failState.errors ≠ []
        decide
      · show ∀ er ∈ failState.errors, er.fullerrdata ≠ "" ∧ 0 < er.errid
        decide
    · intro loc bytes len s _
      refine ⟨?_, ?_⟩
      · show failState.errors ≠ []
        decide
      · show ∀ er ∈ failState.errors, er.fullerrdata ≠ "" ∧ 0 < er.errid
        decide
  refine ⟨hF, ?_⟩
  exact (c6_failure_carries_nonempty_diagnostics failEngine hF).1 ⟨rom4, tloc⟩ emptyState
    [ErrorData.from_raw sampleRawError] failState (by decide)

/-- C7: for every engine honouring its documented reset contract, a call to
`patching::reset` that returns `true` leaves a state on which
`patching::labels`, `patching::defines` and `patching::errors` all yield the
empty vector. -/
theorem c7_reset_clears_queries (e : Engine) (hE : EngineResetOk e) (s s' : EngineState)
    (h : patching.reset e s = (true, s')) :
    patching.labels s' = [] ∧ patching.defines s' = [] ∧ patching.errors s' = [] := by
  unfold patching.reset at h
  have h1 : (e.resetFn s).1 = true := by rw [h]
  have h2 : (e.resetFn s).2 = s' := by rw [h]
  obtain ⟨he, _, _, hl, hd⟩ := hE s h1
  rw [h2] at he hl hd
  refine ⟨?_, ?_, ?_⟩ <;>
    simp [patching.labels, patching.defines, patching.errors, he, hl, hd]

/-- Witness for C7 at a concrete engine and a dirty state. -/
theorem c7_witness :
    EngineResetOk okEngine ∧
    (patching.labels emptyState = [] ∧ patching.defines emptyState = [] ∧
      patching.errors emptyState = []) := by
  have hR : EngineResetOk okEngine := fun _ _ => ⟨rfl, rfl, rfl, rfl, rfl⟩
  exact ⟨hR, c7_reset_clears_queries okEngine hR failState emptyState (by decide)⟩

/-- C8: an embedded NUL in any marshalled input string — the math
expression, the patch location of `patching::patch`, or the patch location,
an include path, a define name or contents, a warning id or a memory-file
name of `patch_ex_basic` (hence `patch_ex` and `Patcher::apply`) — makes the
call panic at the `CString::new(..).unwrap()`: no normal result is produced,
nothing is truncated, nothing is recovered. -/
theorem c8_embedded_nul_is_fatal (e : Engine) :
    (∀ expr, hasNul expr = true → patching.math e expr = none) ∧
    (∀ options s, hasNul options.patchloc = true → patching.patch e options s = none) ∧
    (∀ rom patch options s,
      (hasNul patch = true ∨
       (∃ d ∈ options.additional_defines, hasNul d.name = true ∨ hasNul d.contents = true) ∨
       (∃ w ∈ options.warning_settings, hasNul w.warnid = true) ∨
       (∃ m ∈ options.memory_files, hasNul m.filename = true) ∨
       (∃ p ∈ options.includepaths, hasNul p = true)) →
      patching.patch_ex_basic e rom patch options s = none) := by
  refine ⟨?_, ?_, ?_⟩
  · intro expr h
    simp [patching.math, h]
  · intro options s h
    simp [patching.patch, h]
  · intro rom patch options s hbad
    unfold patching.patch_ex_basic
    split_ifs with h1 h2 h3 h4 h5 h6 h7
    any_goals rfl
    exfalso
    rcases hbad with hb | hb | hb | hb | hb
    · exact h1 hb
    · obtain ⟨d, hd, hcase⟩ := hb
      have hall : options.additional_defines.all patching.defineNulFree = true := by
        simpa using h2
      have hgood : patching.defineNulFree d = true := List.all_eq_true.mp hall d hd
      rcases hcase with hn | hn <;> simp [patching.defineNulFree, hn] at hgood
    · obtain ⟨w, hw, hn⟩ := hb
      have hall : options.warning_settings.all (fun w => !hasNul w.warnid) = true := by
        simpa using h3
      have hgood := List.all_eq_true.mp hall w hw
      simp [hn] at hgood
    · obtain ⟨m, hm, hn⟩ := hb
      have hall : options.memory_files.all (fun m => !hasNul m.filename) = true := by
        simpa using h4
      have hgood := List.all_eq_true.mp hall m hm
      simp [hn] at hgood
    · obtain ⟨p, hp, hn⟩ := hb
      have hall : options.includepaths.all (fun p => !hasNul p) = true := by
        simpa using h5
      have hgood := List.all_eq_true.mp hall p hp
      simp [hn] at hgood

/-- Witness for C8: a concrete NUL-carrying math expression panics. -/
theorem c8_witness :
    hasNul nulString = true ∧ patching.math okEngine nulString = none :=
  ⟨by decide, (c8_embedded_nul_is_fatal okEngine).1 nulString (by decide)⟩

/-- C9: for every NUL-free name, `patching::label_value` returns `None`
exactly when the engine reports the sentinel `-1` for that name, and
`Some` of the engine's value otherwise — so a label legitimately resolved to
address `-1` is indistinguishable from an absent one. -/
theorem c9_label_value_none_iff_engine_sentinel (e : Engine) (name : String)
    (s : EngineState) (h : hasNul name = false) :
    (patching.label_value e name s = some none ↔ e.getlabelvalFn s name = -1) ∧
    (e.getlabelvalFn s name ≠ -1 →
      patching.label_value e name s = some (some (e.getlabelvalFn s name))) := by
  refine ⟨?_, ?_⟩
  · by_cases hv : e.getlabelvalFn s name = -1
    · simp [patching.label_value, h, hv]
    · simp [patching.label_value, h, hv]
  · intro hv
    simp [patching.label_value, h, hv]

/-- Witness for C9: the engine reporting `-1` for every name makes
`label_value` return `None`. -/
theorem c9_witness :
    hasNul tloc = false ∧ patching.label_value okEngine tloc emptyState = some none := by
  have h := c9_label_value_none_iff_engine_sentinel okEngine tloc emptyState (by decide)
  exact ⟨by decide, h.1.mpr rfl⟩

/-- C10: consuming an `ApplyResult` via `romdata()` also resets the engine:
the body moves the ROM data out and clears the gate, and because `romdata`
takes `self` by value the `Drop` implementation still runs afterwards and
calls `patching::reset()` — so on an engine honouring its reset contract
(when that reset succeeds) the errors, warnings, prints, labels and defines
are cleared on the consuming path as well. -/
theorem c10_romdata_consume_resets_engine (e : Engine) (hE : EngineResetOk e)
    (r : ApplyResult) (s : WState) (h : (e.resetFn s.est).1 = true) :
    (ApplyResult.romdataConsume e r s).1 = r.romdata ∧
    (ApplyResult.romdataConsume e r s).2.gate = false ∧
    patching.errors (ApplyResult.romdataConsume e r s).2.est = [] ∧
    patching.warnings (ApplyResult.romdataConsume e r s).2.est = [] ∧
    patching.prints (ApplyResult.romdataConsume e r s).2.est = [] ∧
    patching.labels (ApplyResult.romdataConsume e r s).2.est = [] ∧
    patching.defines (ApplyResult.romdataConsume e r s).2.est = [] := by
  obtain ⟨he, hw, hp, hl, hd⟩ := hE s.est h
  refine ⟨rfl, rfl, ?_, ?_, ?_, ?_, ?_⟩ <;>
    simp [ApplyResult.romdataConsume, patching.errors, patching.warnings, patching.prints,
      patching.labels, patching.defines, he, hw, hp, hl, hd]

/-- Witness for C10 at the concrete engine and a dirty alive state. -/
theorem c10_witness :
    EngineResetOk okEngine ∧ (okEngine.resetFn failState).1 = true ∧
    ((ApplyResult.romdataConsume okEngine ⟨rom4, true⟩ ⟨true, failState⟩).1 =
        (⟨rom4, true⟩ : ApplyResult).romdata ∧
      (ApplyResult.romdataConsume okEngine ⟨rom4, true⟩ ⟨true, failState⟩).2.gate = false ∧
      patching.errors (ApplyResult.romdataConsume okEngine ⟨rom4, true⟩
        ⟨true, failState⟩).2.est = [] ∧
      patching.warnings (ApplyResult.romdataConsume okEngine ⟨rom4, true⟩
        ⟨true, failState⟩).2.est = [] ∧
      patching.prints (ApplyResult.romdataConsume okEngine ⟨rom4, true⟩
        ⟨true, failState⟩).2.est = [] ∧
      patching.labels (ApplyResult.romdataConsume okEngine ⟨rom4, true⟩
        ⟨true, failState⟩).2.est = [] ∧
      patching.defines (ApplyResult.romdataConsume okEngine ⟨rom4, true⟩
        ⟨true, failState⟩).2.est = []) := by
  have hR : EngineResetOk okEngine := fun _ _ => ⟨rfl, rfl, rfl, rfl, rfl⟩
  exact ⟨hR, rfl,
    c10_romdata_consume_resets_engine okEngine hR ⟨rom4, true⟩ ⟨true, failState⟩ rfl⟩

end AsarSnes
